import Mathlib

/-!
Verification of the temporal-versioning view `osmium::DiffObject`
(src/third_party/libosmium/include/osmium/osm/diff_object.hpp).

A `DiffObject` holds three raw pointers to `OSMObject`s (previous, current
and next version of the same entity).  We embed pointers as addresses
(`Nat`) into a heap `Nat → OSMObject`; pointer identity (used by `first`
and `last`) is address equality, and `nullptr` is `Option.none`.  The
`assert` precondition checks of the C++ accessors are embedded by making
each accessor return `Option`: `none` models a fired assertion in a
checked build.
-/

/-- Modelled from the spec: the entity type tag of the external
`osmium::OSMObject` (item_type.hpp is not part of this repository's
sources); the spec restricts it to nodes, ways and relations. -/
inductive item_type where
  | node
  | way
  | relation
deriving DecidableEq

/-- Modelled from the spec: the fields of the external `osmium::OSMObject`
(object.hpp is not part of this repository's sources) that the core reads:
type tag, numeric id, version, changeset id, creation timestamp and the
visible flag.  Timestamps are embedded as `Nat`. -/
structure OSMObject where
  type : item_type
  id : Int
  version : Nat
  changeset : Nat
  timestamp : Nat
  visible : Bool
deriving DecidableEq

/-- Modelled from the spec: `osmium::end_of_time()` (timestamp.hpp is not
part of this repository's sources), the "end of time" sentinel timestamp,
strictly greater than every timestamp producible by the upstream data
source.  libosmium uses the maximal 32-bit timestamp value. -/
def end_of_time : Nat := 4294967295

/-- Modelled from the spec: a "real" timestamp, i.e. one producible by the
upstream data source, is strictly below the "end of time" sentinel. -/
def is_real_timestamp (t : Nat) : Prop := t < end_of_time

/-- Modelled from the spec: the upstream data-model invariants of a
version chain at one position, as stated in the spec's data model:
timestamps are monotonically non-decreasing along the chain (ties
permitted) and every stored timestamp is a real timestamp. -/
def chainInvariant (h : Nat → OSMObject) (p c n : Nat) : Prop :=
  (h p).timestamp ≤ (h c).timestamp ∧
  (h c).timestamp ≤ (h n).timestamp ∧
  is_real_timestamp (h p).timestamp ∧
  is_real_timestamp (h c).timestamp ∧
  is_real_timestamp (h n).timestamp

/-- Embedding of `osmium::DiffObject`: three pointers (addresses, `none`
for `nullptr`) to the previous, current and next version. -/
structure DiffObject where
  m_prev : Option Nat
  m_curr : Option Nat
  m_next : Option Nat
deriving DecidableEq

/-- The default constructor `DiffObject()`: all three pointers are
`nullptr`, producing an empty DiffObject. -/
def DiffObject.default : DiffObject :=
  { m_prev := none, m_curr := none, m_next := none }

/-- The three-argument constructor
`DiffObject(prev, curr, next)`: stores the addresses of the three objects
and asserts that all three have the same type and the same id.  A failed
assertion is `none`. -/
def DiffObject.construct (h : Nat → OSMObject) (prev curr next : Nat) :
    Option DiffObject :=
  if (h prev).type = (h curr).type ∧ (h curr).type = (h next).type then
    if (h prev).id = (h curr).id ∧ (h curr).id = (h next).id then
      some { m_prev := some prev, m_curr := some curr, m_next := some next }
    else none
  else none

/-- The `empty()` method: the DiffObject was created empty iff `m_prev`
is the null pointer. -/
def DiffObject.empty (d : DiffObject) : Bool :=
  d.m_prev = none

/-- The common precondition `assert(m_prev && m_curr && m_next)` of all
accessors: all three pointers are non-null. -/
def DiffObject.assertNonEmpty (d : DiffObject) : Bool :=
  d.m_prev.isSome && d.m_curr.isSome && d.m_next.isSome

/-- The `prev()` method: returns the reference (address) of the previous
object; asserts non-emptiness. -/
def DiffObject.prev (d : DiffObject) : Option Nat :=
  if d.assertNonEmpty then d.m_prev else none

/-- The `curr()` method: returns the reference (address) of the current
object; asserts non-emptiness. -/
def DiffObject.curr (d : DiffObject) : Option Nat :=
  if d.assertNonEmpty then d.m_curr else none

/-- The `next()` method: returns the reference (address) of the next
object; asserts non-emptiness. -/
def DiffObject.next (d : DiffObject) : Option Nat :=
  if d.assertNonEmpty then d.m_next else none

/-- The `first()` method: the current version is the first iff the `prev`
pointer equals the `curr` pointer (pointer identity). -/
def DiffObject.first (d : DiffObject) : Option Bool :=
  if d.assertNonEmpty then some (d.m_prev = d.m_curr) else none

/-- The `last()` method: the current version is the last iff the `curr`
pointer equals the `next` pointer (pointer identity). -/
def DiffObject.last (d : DiffObject) : Option Bool :=
  if d.assertNonEmpty then some (d.m_curr = d.m_next) else none

/-- The `type()` method: forwards `m_curr->type()`. -/
def DiffObject.type (h : Nat → OSMObject) (d : DiffObject) :
    Option item_type :=
  if d.assertNonEmpty then d.m_curr.map (fun a => (h a).type) else none

/-- The `id()` method: forwards `m_curr->id()`. -/
def DiffObject.id (h : Nat → OSMObject) (d : DiffObject) : Option Int :=
  if d.assertNonEmpty then d.m_curr.map (fun a => (h a).id) else none

/-- The `version()` method: forwards `m_curr->version()`. -/
def DiffObject.version (h : Nat → OSMObject) (d : DiffObject) :
    Option Nat :=
  if d.assertNonEmpty then d.m_curr.map (fun a => (h a).version) else none

/-- The `changeset()` method: forwards `m_curr->changeset()`. -/
def DiffObject.changeset (h : Nat → OSMObject) (d : DiffObject) :
    Option Nat :=
  if d.assertNonEmpty then d.m_curr.map (fun a => (h a).changeset) else none

/-- The `start_time()` method: `m_curr->timestamp()`. -/
def DiffObject.start_time (h : Nat → OSMObject) (d : DiffObject) :
    Option Nat :=
  if d.assertNonEmpty then d.m_curr.map (fun a => (h a).timestamp) else none

/-- The `end_time()` method:
`last() ? osmium::end_of_time() : m_next->timestamp()`; `last()` inlines
to pointer equality of `m_curr` and `m_next` under the shared assertion. -/
def DiffObject.end_time (h : Nat → OSMObject) (d : DiffObject) :
    Option Nat :=
  if d.assertNonEmpty then
    if d.m_curr = d.m_next then some end_of_time
    else d.m_next.map (fun a => (h a).timestamp)
  else none

/-- The `is_between(from, to)` method:
`start_time() < to && ((start_time() != end_time() && end_time() > from)
|| (start_time() == end_time() && end_time() >= from))`. -/
def DiffObject.is_between (h : Nat → OSMObject) (d : DiffObject)
    (tfrom tto : Nat) : Option Bool :=
  if d.assertNonEmpty then
    match DiffObject.start_time h d, DiffObject.end_time h d with
    | some st, some et =>
        some (decide (st < tto) &&
          ((decide (st ≠ et) && decide (et > tfrom)) ||
           (decide (st = et) && decide (et ≥ tfrom))))
    | _, _ => none
  else none

/-- The `is_visible_at(timestamp)` method:
`start_time() <= timestamp && end_time() > timestamp &&
m_curr->visible()`. -/
def DiffObject.is_visible_at (h : Nat → OSMObject) (d : DiffObject)
    (timestamp : Nat) : Option Bool :=
  if d.assertNonEmpty then
    match DiffObject.start_time h d, DiffObject.end_time h d, d.m_curr with
    | some st, some et, some c =>
        some (decide (st ≤ timestamp) && decide (et > timestamp) &&
          (h c).visible)
    | _, _, _ => none
  else none

/-- Embedding of `osmium::DiffObjectDerived<T>`: a typed view that is a
public subclass of `DiffObject`; its only state is the base subobject. -/
structure DiffObjectDerived where
  base : DiffObject
deriving DecidableEq

/-- The `DiffObjectDerived(prev, curr, next)` constructor delegates to the
`DiffObject` constructor with the same three objects. -/
def DiffObjectDerived.construct (h : Nat → OSMObject) (prev curr next : Nat) :
    Option DiffObjectDerived :=
  (DiffObject.construct h prev curr next).map DiffObjectDerived.mk

/-- The typed `prev()` method: `static_cast<const T&>(DiffObject::prev())`;
the static narrowing keeps the same reference (address). -/
def DiffObjectDerived.prev (dd : DiffObjectDerived) : Option Nat :=
  DiffObject.prev dd.base

/-- The typed `curr()` method: `static_cast<const T&>(DiffObject::curr())`;
the static narrowing keeps the same reference (address). -/
def DiffObjectDerived.curr (dd : DiffObjectDerived) : Option Nat :=
  DiffObject.curr dd.base

/-- The typed `next()` method: `static_cast<const T&>(DiffObject::next())`;
the static narrowing keeps the same reference (address). -/
def DiffObjectDerived.next (dd : DiffObjectDerived) : Option Nat :=
  DiffObject.next dd.base

/-- Half-open interval containment over timestamps:
every point of `[a, b)` lies in `[c, d)`. -/
def subsetI (a b c d : Nat) : Prop :=
  ∀ x : Nat, a ≤ x → x < b → c ≤ x ∧ x < d

/-- A successfully constructed DiffObject stores the three addresses and
its objects satisfy the asserted type and id equalities. -/
lemma DiffObject.construct_some {h : Nat → OSMObject} {p c n : Nat}
    {d : DiffObject} (hd : DiffObject.construct h p c n = some d) :
    d.m_prev = some p ∧ d.m_curr = some c ∧ d.m_next = some n ∧
    (h p).type = (h c).type ∧ (h c).type = (h n).type ∧
    (h p).id = (h c).id ∧ (h c).id = (h n).id := by
  unfold DiffObject.construct at hd
  split at hd
  · split at hd
    · injection hd with hd
      subst hd
      simp_all
    · exact absurd hd (by simp)
  · exact absurd hd (by simp)

/-- A successfully constructed DiffObject passes the accessors' shared
non-emptiness assertion. -/
lemma DiffObject.construct_assert {h : Nat → OSMObject} {p c n : Nat}
    {d : DiffObject} (hd : DiffObject.construct h p c n = some d) :
    d.assertNonEmpty = true := by
  obtain ⟨h1, h2, h3, -⟩ := DiffObject.construct_some hd
  simp [DiffObject.assertNonEmpty, h1, h2, h3]

/-- A sample history heap, the concrete scenario of the specification:
one node identity with versions v1 (timestamp 100, visible) at address 0,
v2 (timestamp 150, visible) at address 1, and v3 (timestamp 150, deleted)
at address 2. -/
def heapX : Nat → OSMObject := fun a =>
  if a = 0 then
    { type := item_type.node, id := 7, version := 1, changeset := 10,
      timestamp := 100, visible := true }
  else if a = 1 then
    { type := item_type.node, id := 7, version := 2, changeset := 11,
      timestamp := 150, visible := true }
  else
    { type := item_type.node, id := 7, version := 3, changeset := 12,
      timestamp := 150, visible := false }

/-- The triple for v2 of the sample scenario: prev = v1, curr = v2,
next = v3; its validity interval is the degenerate `[150, 150)`. -/
def tripleV2 : DiffObject :=
  { m_prev := some 0, m_curr := some 1, m_next := some 2 }

/-- A sample heap with a non-degenerate inner version: curr (address 1)
has timestamp 100 and next (address 2) has timestamp 200. -/
def heapY : Nat → OSMObject := fun a =>
  if a = 2 then
    { type := item_type.way, id := 3, version := 5, changeset := 21,
      timestamp := 200, visible := true }
  else
    { type := item_type.way, id := 3, version := 4, changeset := 20,
      timestamp := 100, visible := true }

/-- The triple (0, 1, 2) over `heapY`: validity interval `[100, 200)`. -/
def tripleY : DiffObject :=
  { m_prev := some 0, m_curr := some 1, m_next := some 2 }

example : DiffObject.construct heapX 0 1 2 = some tripleV2 := by decide
example : DiffObject.start_time heapX tripleV2 = some 150 := by decide
example : DiffObject.end_time heapX tripleV2 = some 150 := by decide
example : DiffObject.is_between heapX tripleV2 150 151 = some true := by
  decide
example : DiffObject.is_between heapX tripleV2 149 150 = some false := by
  decide
example : DiffObject.construct heapY 0 1 2 = some tripleY := by decide
example : DiffObject.is_between heapY tripleY 150 150 = some true := by
  decide

/-- On a constructed DiffObject, `start_time` is the current object's
timestamp. -/
lemma DiffObject.start_time_construct {h : Nat → OSMObject} {p c n : Nat}
    {d : DiffObject} (hd : DiffObject.construct h p c n = some d) :
    DiffObject.start_time h d = some ((h c).timestamp) := by
  obtain ⟨h1, h2, h3, -⟩ := DiffObject.construct_some hd
  simp [DiffObject.start_time, DiffObject.construct_assert hd, h2]

/-- On a constructed DiffObject, `end_time` is the sentinel when the curr
and next pointers coincide and the next object's timestamp otherwise. -/
lemma DiffObject.end_time_construct {h : Nat → OSMObject} {p c n : Nat}
    {d : DiffObject} (hd : DiffObject.construct h p c n = some d) :
    DiffObject.end_time h d =
      some (if c = n then end_of_time else (h n).timestamp) := by
  obtain ⟨h1, h2, h3, -⟩ := DiffObject.construct_some hd
  simp only [DiffObject.end_time, DiffObject.construct_assert hd, if_true,
    h2, h3, Option.some.injEq, Option.map_some]
  split <;> simp

/-- On a constructed DiffObject, `is_between` computes the boolean formula
of the source over the values of `start_time` and `end_time`. -/
lemma DiffObject.is_between_eq {h : Nat → OSMObject} {p c n : Nat}
    {d : DiffObject} (hd : DiffObject.construct h p c n = some d)
    {st et : Nat} (hst : DiffObject.start_time h d = some st)
    (het : DiffObject.end_time h d = some et) (tfrom tto : Nat) :
    DiffObject.is_between h d tfrom tto =
      some (decide (st < tto) &&
        ((decide (st ≠ et) && decide (et > tfrom)) ||
         (decide (st = et) && decide (et ≥ tfrom)))) := by
  simp only [DiffObject.is_between, DiffObject.construct_assert hd,
    if_true, hst, het]

/-- On a constructed DiffObject, `is_visible_at` computes the boolean
formula of the source over `start_time`, `end_time` and the current
object's visible flag. -/
lemma DiffObject.is_visible_at_eq {h : Nat → OSMObject} {p c n : Nat}
    {d : DiffObject} (hd : DiffObject.construct h p c n = some d)
    {st et : Nat} (hst : DiffObject.start_time h d = some st)
    (het : DiffObject.end_time h d = some et) (ts : Nat) :
    DiffObject.is_visible_at h d ts =
      some (decide (st ≤ ts) && decide (et > ts) && (h c).visible) := by
  obtain ⟨h1, h2, h3, -⟩ := DiffObject.construct_some hd
  simp only [DiffObject.is_visible_at, DiffObject.construct_assert hd,
    if_true, hst, het, h2]

/-- C1: for every non-empty triple and all timestamps `from` and `to`,
`is_between(from, to)` returns true if and only if
`start_time() < to` and ((`start_time() != end_time()` and
`end_time() > from`) or (`start_time() == end_time()` and
`end_time() >= from`)): a strict lower-bound comparison for non-degenerate
intervals and an inclusive one exactly when
`start_time() == end_time()`. -/
theorem C1_is_between_iff (h : Nat → OSMObject) (p c n : Nat)
    (d : DiffObject) (hd : DiffObject.construct h p c n = some d)
    (st et tfrom tto : Nat)
    (hst : DiffObject.start_time h d = some st)
    (het : DiffObject.end_time h d = some et) :
    DiffObject.is_between h d tfrom tto = some true ↔
      st < tto ∧ ((st ≠ et ∧ et > tfrom) ∨ (st = et ∧ et ≥ tfrom)) := by
  rw [DiffObject.is_between_eq hd hst het]
  simp

/-- C1 witness: the characterization instantiated at the sample degenerate
triple for v2 with query interval `[140, 151)`. -/
theorem C1_is_between_iff_witness :
    DiffObject.is_between heapX tripleV2 140 151 = some true ↔
      150 < 151 ∧
        ((150 ≠ 150 ∧ 150 > 140) ∨ ((150 : Nat) = 150 ∧ 150 ≥ 140)) :=
  C1_is_between_iff heapX 0 1 2 tripleV2 (by decide) 150 150 140 151
    (by decide) (by decide)

/-- C2: for every non-empty triple and every timestamp `t`,
`is_visible_at(t)` returns true if and only if `start_time() <= t` and
`end_time() > t` and the current object's visible flag is true; in
particular a deleted current version is never visible. -/
theorem C2_is_visible_at_iff (h : Nat → OSMObject) (p c n : Nat)
    (d : DiffObject) (hd : DiffObject.construct h p c n = some d)
    (st et ts : Nat)
    (hst : DiffObject.start_time h d = some st)
    (het : DiffObject.end_time h d = some et) :
    DiffObject.is_visible_at h d ts = some true ↔
      st ≤ ts ∧ et > ts ∧ (h c).visible = true := by
  rw [DiffObject.is_visible_at_eq hd hst het]
  simp [and_assoc]

/-- C2 witness: the characterization instantiated at the sample
non-degenerate triple with interval `[100, 200)` at timestamp 150. -/
theorem C2_is_visible_at_iff_witness :
    DiffObject.is_visible_at heapY tripleY 150 = some true ↔
      100 ≤ 150 ∧ 200 > 150 ∧ (heapY 1).visible = true :=
  C2_is_visible_at_iff heapY 0 1 2 tripleY (by decide) 100 200 150
    (by decide) (by decide)

/-- The triple for v3 of the sample scenario: prev = v2, curr = v3,
next = v3 (same pointer), so it is the last version. -/
def tripleV3 : DiffObject :=
  { m_prev := some 1, m_curr := some 2, m_next := some 2 }

/-- C3: for every non-empty triple, if `last()` holds then `end_time()` is
the "end of time" sentinel, otherwise it is the next object's timestamp;
and the sentinel compares strictly greater than any real timestamp
producible by the upstream data source. -/
theorem C3_end_time_sentinel (h : Nat → OSMObject) (p c n : Nat)
    (d : DiffObject) (hd : DiffObject.construct h p c n = some d)
    (b : Bool) (hlast : DiffObject.last d = some b)
    (t : Nat) (ht : is_real_timestamp t) :
    DiffObject.end_time h d =
      some (if b then end_of_time else (h n).timestamp) ∧
    end_of_time > t := by
  obtain ⟨h1, h2, h3, -⟩ := DiffObject.construct_some hd
  refine ⟨?_, ht⟩
  rw [DiffObject.end_time_construct hd]
  simp only [DiffObject.last, DiffObject.construct_assert hd, if_true,
    Option.some.injEq, h2, h3] at hlast
  subst hlast
  simp

/-- C3 witness: the last triple of the sample scenario has the sentinel as
its `end_time`, and the sentinel exceeds the real timestamp 150. -/
theorem C3_end_time_sentinel_witness :
    DiffObject.end_time heapX tripleV3 =
      some (if true then end_of_time else (heapX 2).timestamp) ∧
    end_of_time > 150 :=
  C3_end_time_sentinel heapX 1 2 2 tripleV3 (by decide) true (by decide)
    150 (by unfold is_real_timestamp end_of_time; decide)

/-- C5: for every non-empty non-last triple whose current and next objects
share a timestamp (degenerate zero-width interval),
`is_between(start_time(), start_time()+1)` returns true and
`is_between(start_time()-1, start_time())` returns false. -/
theorem C5_degenerate_overlap (h : Nat → OSMObject) (p c n : Nat)
    (d : DiffObject) (hd : DiffObject.construct h p c n = some d)
    (hlast : DiffObject.last d = some false)
    (hts : (h c).timestamp = (h n).timestamp)
    (st : Nat) (hst : DiffObject.start_time h d = some st) :
    DiffObject.is_between h d st (st + 1) = some true ∧
    DiffObject.is_between h d (st - 1) st = some false := by
  obtain ⟨h1, h2, h3, -⟩ := DiffObject.construct_some hd
  simp only [DiffObject.last, DiffObject.construct_assert hd, if_true,
    Option.some.injEq, h2, h3, decide_eq_false_iff_not] at hlast
  have hcn : ¬ c = n := by simpa using hlast
  have hst' : st = (h c).timestamp := by
    rw [DiffObject.start_time_construct hd] at hst
    exact (Option.some.injEq _ _ ▸ hst).symm
  have het : DiffObject.end_time h d = some st := by
    rw [DiffObject.end_time_construct hd]
    simp [hcn, hst', hts]
  constructor
  · rw [DiffObject.is_between_eq hd hst het]
    simp
  · rw [DiffObject.is_between_eq hd hst het]
    simp

/-- C5 witness: the degenerate triple for v2 of the sample scenario,
with start_time 150: `is_between(150, 151)` is true and
`is_between(149, 150)` is false. -/
theorem C5_degenerate_overlap_witness :
    DiffObject.is_between heapX tripleV2 150 (150 + 1) = some true ∧
    DiffObject.is_between heapX tripleV2 (150 - 1) 150 = some false :=
  C5_degenerate_overlap heapX 0 1 2 tripleV2 (by decide) (by decide)
    (by decide) 150 (by decide)

/-- C6: for every non-empty triple of a well-formed version chain (the
spec's data-model invariants: non-decreasing timestamps along the chain,
all stored timestamps real) whose current object is visible and whose
interval is non-degenerate (`start_time() != end_time()`),
`is_visible_at(start_time())` returns true and `is_visible_at(end_time())`
returns false. -/
theorem C6_visible_at_boundaries (h : Nat → OSMObject) (p c n : Nat)
    (d : DiffObject) (hd : DiffObject.construct h p c n = some d)
    (hvis : (h c).visible = true)
    (hinv : chainInvariant h p c n)
    (st et : Nat) (hst : DiffObject.start_time h d = some st)
    (het : DiffObject.end_time h d = some et) (hne : st ≠ et) :
    DiffObject.is_visible_at h d st = some true ∧
    DiffObject.is_visible_at h d et = some false := by
  obtain ⟨-, hmono, -, hreal, -⟩ := hinv
  have hst' : st = (h c).timestamp := by
    rw [DiffObject.start_time_construct hd] at hst
    exact (Option.some.injEq _ _ ▸ hst).symm
  have het' : et = if c = n then end_of_time else (h n).timestamp := by
    rw [DiffObject.end_time_construct hd] at het
    exact (Option.some.injEq _ _ ▸ het).symm
  have hlt : st < et := by
    by_cases hcn : c = n
    · rw [het', if_pos hcn, hst']
      exact hreal
    · rw [het', if_neg hcn] at hne ⊢
      rw [hst'] at hne ⊢
      exact lt_of_le_of_ne hmono hne
  constructor
  · rw [DiffObject.is_visible_at_eq hd hst het]
    simp [hvis, hlt]
  · rw [DiffObject.is_visible_at_eq hd hst het]
    simp

/-- C6 witness: the non-degenerate visible triple over `heapY` with
interval `[100, 200)`: visible at 100, not visible at 200. -/
theorem C6_visible_at_boundaries_witness :
    DiffObject.is_visible_at heapY tripleY 100 = some true ∧
    DiffObject.is_visible_at heapY tripleY 200 = some false :=
  C6_visible_at_boundaries heapY 0 1 2 tripleY (by decide) (by decide)
    (by unfold chainInvariant is_real_timestamp end_of_time; decide)
    100 200 (by decide) (by decide) (by decide)

/-- C4 counterexample: the degenerate triple for v2 has the empty validity
interval `[150, 150)`, which is a subset of the query interval `[0, 1)`,
yet `is_between(0, 1)` returns false. -/
theorem C4_subset_counterexample :
    subsetI 150 150 0 1 ∧
    DiffObject.construct heapX 0 1 2 = some tripleV2 ∧
    DiffObject.start_time heapX tripleV2 = some 150 ∧
    DiffObject.end_time heapX tripleV2 = some 150 ∧
    DiffObject.is_between heapX tripleV2 0 1 = some false := by
  refine ⟨?_, by decide, by decide, by decide, by decide⟩
  intro x hx1 hx2
  omega

/-- C4 amended: for every non-empty triple whose validity interval
`[start_time(), end_time())` is non-degenerate
(`start_time() < end_time()`) and a subset of the query interval
`[from, to)`, `is_between(from, to)` returns true. -/
theorem C4_subset_overlaps (h : Nat → OSMObject) (p c n : Nat)
    (d : DiffObject) (hd : DiffObject.construct h p c n = some d)
    (st et tfrom tto : Nat)
    (hst : DiffObject.start_time h d = some st)
    (het : DiffObject.end_time h d = some et)
    (hlt : st < et) (hsub : subsetI st et tfrom tto) :
    DiffObject.is_between h d tfrom tto = some true := by
  have h1 := hsub st le_rfl hlt
  have h2 := hsub (et - 1) (by omega) (by omega)
  rw [DiffObject.is_between_eq hd hst het]
  simp only [Option.some.injEq, Bool.and_eq_true, Bool.or_eq_true,
    decide_eq_true_eq]
  omega

/-- C4 witness: the non-degenerate triple over `heapY` with validity
interval `[100, 200)` overlaps the containing query interval
`[50, 300)`. -/
theorem C4_subset_overlaps_witness :
    DiffObject.is_between heapY tripleY 50 300 = some true :=
  C4_subset_overlaps heapY 0 1 2 tripleY (by decide) 100 200 50 300
    (by decide) (by decide) (by decide)
    (fun x hx1 hx2 => by constructor <;> omega)

/-- A heap whose objects all have the same type but pairwise distinct ids:
constructing a triple from three of its objects violates the id
assertion. -/
def heapBad : Nat → OSMObject := fun a =>
  { type := item_type.node, id := (a : Int), version := 1, changeset := 1,
    timestamp := 100, visible := true }

/-- C7: constructing a triple from three objects fails the constructor's
assertions exactly when the three objects do not all share the same type
and the same id; when type and id agree the assertions pass and the
result is the non-empty triple of the three addresses. -/
theorem C7_construct_contract (h : Nat → OSMObject) (p c n : Nat) :
    (DiffObject.construct h p c n = none ↔
      ¬ ((h p).type = (h c).type ∧ (h c).type = (h n).type ∧
         (h p).id = (h c).id ∧ (h c).id = (h n).id)) ∧
    ((h p).type = (h c).type ∧ (h c).type = (h n).type ∧
     (h p).id = (h c).id ∧ (h c).id = (h n).id →
      DiffObject.construct h p c n =
        some { m_prev := some p, m_curr := some c, m_next := some n } ∧
      DiffObject.empty
        { m_prev := some p, m_curr := some c, m_next := some n } =
          false) := by
  constructor
  · unfold DiffObject.construct
    split
    · split
      · simp
        tauto
      · simp
        tauto
    · simp
      tauto
  · rintro ⟨ht1, ht2, hi1, hi2⟩
    refine ⟨?_, by simp [DiffObject.empty]⟩
    unfold DiffObject.construct
    rw [if_pos ⟨ht1, ht2⟩, if_pos ⟨hi1, hi2⟩]

/-- C7 witness: over `heapBad` the objects at addresses 0, 1, 2 have
distinct ids, so construction fails; over `heapX` the objects at 0, 1, 2
share type and id, so construction succeeds non-empty. -/
theorem C7_construct_contract_witness :
    DiffObject.construct heapBad 0 1 2 = none ∧
    DiffObject.construct heapX 0 1 2 =
      some { m_prev := some 0, m_curr := some 1, m_next := some 2 } ∧
    DiffObject.empty
      { m_prev := some 0, m_curr := some 1, m_next := some 2 } = false :=
  ⟨(C7_construct_contract heapBad 0 1 2).1.mpr (by decide),
   (C7_construct_contract heapX 0 1 2).2 (by decide)⟩

/-- C8: the default-constructed triple is empty and every accessor fires
its precondition assertion on it; on a successfully constructed triple,
`empty` is false and no accessor's assertion fires (every accessor
returns a value). -/
theorem C8_empty_preconditions (h : Nat → OSMObject) (tfrom tto ts : Nat)
    (p c n : Nat) (d : DiffObject)
    (hd : DiffObject.construct h p c n = some d) :
    (DiffObject.empty DiffObject.default = true ∧
     DiffObject.prev DiffObject.default = none ∧
     DiffObject.curr DiffObject.default = none ∧
     DiffObject.next DiffObject.default = none ∧
     DiffObject.first DiffObject.default = none ∧
     DiffObject.last DiffObject.default = none ∧
     DiffObject.type h DiffObject.default = none ∧
     DiffObject.id h DiffObject.default = none ∧
     DiffObject.version h DiffObject.default = none ∧
     DiffObject.changeset h DiffObject.default = none ∧
     DiffObject.start_time h DiffObject.default = none ∧
     DiffObject.end_time h DiffObject.default = none ∧
     DiffObject.is_between h DiffObject.default tfrom tto = none ∧
     DiffObject.is_visible_at h DiffObject.default ts = none) ∧
    (DiffObject.empty d = false ∧
     (DiffObject.prev d).isSome = true ∧
     (DiffObject.curr d).isSome = true ∧
     (DiffObject.next d).isSome = true ∧
     (DiffObject.first d).isSome = true ∧
     (DiffObject.last d).isSome = true ∧
     (DiffObject.type h d).isSome = true ∧
     (DiffObject.id h d).isSome = true ∧
     (DiffObject.version h d).isSome = true ∧
     (DiffObject.changeset h d).isSome = true ∧
     (DiffObject.start_time h d).isSome = true ∧
     (DiffObject.end_time h d).isSome = true ∧
     (DiffObject.is_between h d tfrom tto).isSome = true ∧
     (DiffObject.is_visible_at h d ts).isSome = true) := by
  obtain ⟨h1, h2, h3, -⟩ := DiffObject.construct_some hd
  have ha := DiffObject.construct_assert hd
  constructor
  · refine ⟨rfl, rfl, rfl, rfl, rfl, rfl, rfl, rfl, rfl, rfl, rfl, rfl,
      rfl, rfl⟩
  · refine ⟨?_, ?_, ?_, ?_, ?_, ?_, ?_, ?_, ?_, ?_, ?_, ?_, ?_, ?_⟩
    · simp [DiffObject.empty, h1]
    · simp [DiffObject.prev, ha, h1]
    · simp [DiffObject.curr, ha, h2]
    · simp [DiffObject.next, ha, h3]
    · simp [DiffObject.first, ha]
    · simp [DiffObject.last, ha]
    · simp [DiffObject.type, ha, h2]
    · simp [DiffObject.id, ha, h2]
    · simp [DiffObject.version, ha, h2]
    · simp [DiffObject.changeset, ha, h2]
    · simp [DiffObject.start_time, ha, h2]
    · rw [DiffObject.end_time_construct hd]
      simp
    · rw [DiffObject.is_between_eq hd (DiffObject.start_time_construct hd)
        (DiffObject.end_time_construct hd) tfrom tto]
      simp
    · rw [DiffObject.is_visible_at_eq hd
        (DiffObject.start_time_construct hd)
        (DiffObject.end_time_construct hd) ts]
      simp

/-- C8 witness: the theorem applied over `heapX` to the constructed triple
for v2: the default triple is empty, the constructed one is not. -/
theorem C8_empty_preconditions_witness :
    DiffObject.empty DiffObject.default = true ∧
    DiffObject.empty tripleV2 = false := by
  have hc := C8_empty_preconditions heapX 140 151 150 0 1 2 tripleV2
    (by decide)
  exact ⟨hc.1.1, hc.2.1⟩

/-- C9: a typed view constructed from three objects of one kind agrees
with the base triple constructed from the same three objects on every
inherited query, and its typed `prev`, `curr`, `next` return the same
underlying references (addresses) as the base accessors. -/
theorem C9_derived_refines_base (h : Nat → OSMObject) (k : item_type)
    (p c n : Nat)
    (_hk : (h p).type = k ∧ (h c).type = k ∧ (h n).type = k)
    (dd : DiffObjectDerived) (d : DiffObject)
    (hdd : DiffObjectDerived.construct h p c n = some dd)
    (hd : DiffObject.construct h p c n = some d)
    (tfrom tto ts : Nat) :
    dd.base = d ∧
    DiffObjectDerived.prev dd = DiffObject.prev d ∧
    DiffObjectDerived.curr dd = DiffObject.curr d ∧
    DiffObjectDerived.next dd = DiffObject.next d ∧
    DiffObject.empty dd.base = DiffObject.empty d ∧
    DiffObject.first dd.base = DiffObject.first d ∧
    DiffObject.last dd.base = DiffObject.last d ∧
    DiffObject.type h dd.base = DiffObject.type h d ∧
    DiffObject.id h dd.base = DiffObject.id h d ∧
    DiffObject.version h dd.base = DiffObject.version h d ∧
    DiffObject.changeset h dd.base = DiffObject.changeset h d ∧
    DiffObject.start_time h dd.base = DiffObject.start_time h d ∧
    DiffObject.end_time h dd.base = DiffObject.end_time h d ∧
    DiffObject.is_between h dd.base tfrom tto =
      DiffObject.is_between h d tfrom tto ∧
    DiffObject.is_visible_at h dd.base ts =
      DiffObject.is_visible_at h d ts := by
  have hbase : dd.base = d := by
    unfold DiffObjectDerived.construct at hdd
    rw [hd] at hdd
    simp only [Option.map_some', Option.some.injEq] at hdd
    rw [← hdd]
  subst hbase
  exact ⟨rfl, rfl, rfl, rfl, rfl, rfl, rfl, rfl, rfl, rfl, rfl, rfl, rfl,
    rfl, rfl⟩

/-- The typed view over `heapY` at addresses (0, 1, 2), all of kind Way. -/
def typedY : DiffObjectDerived :=
  { base := tripleY }

/-- C9 witness: the typed view over `heapY` has the base triple as its
base subobject and its typed `curr` returns the same reference. -/
theorem C9_derived_refines_base_witness :
    typedY.base = tripleY ∧
    DiffObjectDerived.curr typedY = DiffObject.curr tripleY := by
  have hc := C9_derived_refines_base heapY item_type.way 0 1 2
    (by decide) typedY tripleY (by decide) (by decide) 50 300 150
  exact ⟨hc.1, hc.2.2.1⟩

/-- C10: `is_between` does not require `from < to`: on the triple over
`heapY` with validity interval `[100, 200)` and the timestamp 150 strictly
inside it, `is_between(150, 150)` returns true although the half-open
query interval `[150, 150)` is empty. -/
theorem C10_empty_query_interval :
    DiffObject.construct heapY 0 1 2 = some tripleY ∧
    DiffObject.start_time heapY tripleY = some 100 ∧
    DiffObject.end_time heapY tripleY = some 200 ∧
    100 < 150 ∧ 150 < 200 ∧
    DiffObject.is_between heapY tripleY 150 150 = some true := by
  refine ⟨by decide, by decide, by decide, by decide, by decide, by decide⟩
